import Mathlib

/-!
Shallow embedding of the Paw-recognition frontend's non-presentation logic:
the prediction client (`predictPaw`, `predictFromBase64`, `fileToBase64`,
`urlToBase64` from lib/api.ts), the two server relay routes
(app/api/predict `POST`, app/api/random-dog `GET`), and the camera /
prediction state handling of app/page.tsx.  Browser and network I/O is made
explicit: each function takes the outcome of its `fetch` / `FileReader`
calls as a parameter and returns the value the source computes from it.
JavaScript truthiness on optional strings (`x || y`, `if (!x)`) is modelled
by `jsTruthy` / `jsOr`.
-/

/-- JavaScript truthiness of an optional string: `undefined`/`null` and the
empty string are falsy, every other string truthy. -/
def jsTruthy : Option String → Bool
  | some s => if s = "" then false else true
  | none => false

/-- JavaScript `a || d` for an optional string `a` and default `d`. -/
def jsOr (o : Option String) (d : String) : String :=
  match o with
  | some s => if s = "" then d else s
  | none => d

/-- JavaScript `String.prototype.startsWith`, on the character sequences of
the two strings. -/
def strStartsWith (s p : String) : Bool := p.toList.isPrefixOf s.toList

/-- The `Response.ok` predicate: status in the inclusive range 200–299. -/
def statusOk (status : Nat) : Bool :=
  if 200 ≤ status ∧ status < 300 then true else false

/-- The standard base64 alphabet. -/
def base64Table : List Char :=
  "ABCDEFGHIJKLMNOPQRSTUVWXYZabcdefghijklmnopqrstuvwxyz0123456789+/".toList

def b64c (n : Nat) : Char := base64Table.getD n '?'

/-- Standard base64 of a byte list (values `< 256`), with `=` padding, as
produced by `FileReader.readAsDataURL` and Node's `buffer.toString`. -/
def base64Encode : List Nat → String
  | [] => ""
  | [a] =>
    String.mk [b64c (a / 4 % 64), b64c (a % 4 * 16), '=', '=']
  | [a, b] =>
    String.mk [b64c (a / 4 % 64), b64c (a % 4 * 16 + b / 16 % 16), b64c (b % 16 * 4), '=']
  | a :: b :: c :: rest =>
    String.mk [b64c (a / 4 % 64), b64c (a % 4 * 16 + b / 16 % 16),
      b64c (b % 16 * 4 + c / 64 % 4), b64c (c % 64)] ++ base64Encode rest

/-- lib/types.ts `Prediction`: a breed label and a confidence value. -/
structure Prediction where
  label : String
  confidence : Rat
deriving DecidableEq, Repr

/-- lib/types.ts `PawRecognitionResponse`: the result shape both prediction
functions return — optional predictions, optional error. -/
structure PawRecognitionResponse where
  predictions : Option (List Prediction)
  error : Option String
deriving DecidableEq, Repr

/-- A browser `File` as the prediction client sees it: its MIME type and
byte size. -/
structure File where
  type : String
  size : Nat
deriving DecidableEq, Repr

/-- Outcome of a `fetch` to the predict endpoint: the promise rejects
(transport failure, message of the thrown `Error`), or a response arrives
with a status and a body that either parses to a `PawRecognitionResponse`
or fails to parse (`SyntaxError` message). -/
inductive FetchOutcome where
  | networkFailure (msg : String)
  | response (status : Nat) (body : Except String PawRecognitionResponse)
deriving Repr

/-- The 5 MiB upload limit of lib/api.ts `predictPaw` (`maxSize`). -/
def maxSize : Nat := 5 * 1024 * 1024

/-- Result of running `predictPaw` instrumented with whether the
`fileToBase64` encode and the network `fetch` were reached. -/
structure PredictRun where
  result : PawRecognitionResponse
  encodeCalled : Bool
  fetchCalled : Bool
deriving DecidableEq, Repr

/-- lib/api.ts `predictPaw`, instrumented.  `enc` is the outcome of
`fileToBase64` (`none`: the reader rejected with a `ProgressEvent`, which is
not an `instanceof Error`, so the catch-all message is returned), `fo` the
outcome of the `fetch`.  Mirrors the source order: type check, size check,
encode, fetch, then 429, 401/403, generic non-ok, and body parse. -/
def predictPawRun (imageFile : File) (enc : Option String) (fo : FetchOutcome) : PredictRun :=
  if strStartsWith imageFile.type "image/" = false then
    ⟨⟨none, some "Please upload a valid image file"⟩, false, false⟩
  else if maxSize < imageFile.size then
    ⟨⟨none, some "Image size should be less than 5MB"⟩, false, false⟩
  else
    match enc with
    | none => ⟨⟨none, some "An unexpected error occurred"⟩, true, false⟩
    | some _ =>
      match fo with
      | .networkFailure msg => ⟨⟨none, some msg⟩, true, true⟩
      | .response status body =>
        if status = 429 then
          ⟨⟨none, some "Too many requests. Please try again later."⟩, true, true⟩
        else if status = 401 ∨ status = 403 then
          ⟨⟨none, some "Authentication failed. Please check your API key."⟩, true, true⟩
        else if statusOk status = false then
          let errorData := body.toOption.getD ⟨none, some "Unknown error"⟩
          ⟨⟨none, some (jsOr errorData.error ("HTTP error! status: " ++ toString status))⟩,
            true, true⟩
        else
          match body with
          | .ok b => ⟨b, true, true⟩
          | .error msg => ⟨⟨none, some msg⟩, true, true⟩

/-- lib/api.ts `predictPaw`: the value returned to the caller. -/
def predictPaw (imageFile : File) (enc : Option String) (fo : FetchOutcome) :
    PawRecognitionResponse :=
  (predictPawRun imageFile enc fo).result

/-- lib/api.ts `predictFromBase64`: posts to the `/api/predict` relay; no
validation and no 429/401/403 special cases — every non-ok status goes
through the generic branch, and on an ok status the parsed body is returned
verbatim (a parse failure there throws a `SyntaxError`, caught as an
`Error`). -/
def predictFromBase64 (imageBase64 : String) (fo : FetchOutcome) : PawRecognitionResponse :=
  match fo with
  | .networkFailure msg => ⟨none, some msg⟩
  | .response status body =>
    if statusOk status = false then
      let errorData := body.toOption.getD ⟨none, some "Unknown error"⟩
      ⟨none, some (jsOr errorData.error ("HTTP error! status: " ++ toString status))⟩
    else
      match body with
      | .ok b => b
      | .error msg => ⟨none, some msg⟩

/-- Outcome of the `fetch(url)` + `response.blob()` in `urlToBase64`: either
the promise chain rejects (transport/read failure), or a response arrives
with some status, a blob MIME type, and body bytes. -/
inductive UrlFetchOutcome where
  | transportFailure (msg : String)
  | response (status : Nat) (blobType : String) (bytes : List Nat)
deriving Repr

/-- lib/api.ts `urlToBase64`: fetches the URL, takes the body as a blob and
returns `FileReader.readAsDataURL`'s data URI.  The source performs no
`response.ok` check, so the status is never consulted; `readerOk = false`
models the reader rejecting.  There is no try/catch, so failures propagate
as rejections (`Except.error`). -/
def urlToBase64 (fo : UrlFetchOutcome) (readerOk : Bool) : Except String String :=
  match fo with
  | .transportFailure msg => .error msg
  | .response _ blobType bytes =>
    if readerOk then .ok ("data:" ++ blobType ++ ";base64," ++ base64Encode bytes)
    else .error "FileReader error"

/-- A JSON object body seen by the predict relay: the `error` field it
inspects, plus any remaining fields (name/value pairs). -/
structure UpstreamBody where
  error : Option String
  extra : List (String × String)
deriving DecidableEq, Repr

/-- Outcome of the relay's `fetch` to the inference service. -/
inductive UpstreamOutcome where
  | networkFailure (msg : String)
  | response (status : Nat) (body : Except String UpstreamBody)
deriving Repr

/-- A `NextResponse.json` value produced by the predict relay. -/
structure RelayResponse where
  status : Nat
  body : UpstreamBody
deriving DecidableEq, Repr

/-- app/api/predict/route.ts `POST`.  `apiUrl`/`apiKey` model the
`NEXT_PUBLIC_API_URL`/`NEXT_PUBLIC_API_KEY` environment values (absent or
empty is falsy), `req` the outcome of `request.json()` together with the
body's `image` field, `up` the outcome of the forwarded fetch.  Source
order: config check, body parse, image check, forward; on a non-ok upstream
status the body is re-parsed with an `Unknown error` fallback and the relay
answers with the upstream status and `{ error: errorData.error || "API
error: <status>" }`; on an ok status it returns the parsed JSON body with
status 200.  Any thrown error (body parse, fetch rejection, upstream
success-body parse) reaches the catch and yields 500. -/
def POST (apiUrl apiKey : Option String) (req : Except String (Option String))
    (up : UpstreamOutcome) : RelayResponse :=
  if (jsTruthy apiUrl && jsTruthy apiKey) = false then
    ⟨500, ⟨some "Server configuration error", []⟩⟩
  else
    match req with
    | .error _ => ⟨500, ⟨some "Internal server error", []⟩⟩
    | .ok image =>
      if jsTruthy image = false then
        ⟨400, ⟨some "No image provided", []⟩⟩
      else
        match up with
        | .networkFailure _ => ⟨500, ⟨some "Internal server error", []⟩⟩
        | .response status body =>
          if statusOk status = false then
            let errorData := body.toOption.getD ⟨some "Unknown error", []⟩
            ⟨status, ⟨some (jsOr errorData.error ("API error: " ++ toString status)), []⟩⟩
          else
            match body with
            | .ok data => ⟨200, data⟩
            | .error _ => ⟨500, ⟨some "Internal server error", []⟩⟩

/-- The fields of the Unsplash random-photo JSON that the random-dog relay
reads: `urls.regular`, `urls.full`, `user.name`, `user.links.html`,
`links.html` (each optional). -/
structure UnsplashData where
  urlsRegular : Option String
  urlsFull : Option String
  userName : Option String
  userLinksHtml : Option String
  linksHtml : Option String
deriving DecidableEq, Repr

/-- Outcome of the relay's `fetch` to the Unsplash API. -/
inductive ProviderOutcome where
  | networkFailure (msg : String)
  | response (status : Nat) (body : Except String UnsplashData)
deriving Repr

/-- Outcome of the relay's `fetch(imageUrl)` download: rejection of the
fetch or of the body read, or a response with status, the
`content-type` header (absent modelled as `none`) and the body bytes. -/
inductive ImageDownloadOutcome where
  | networkFailure (msg : String)
  | response (status : Nat) (contentType : Option String) (bytes : List Nat)
deriving Repr

/-- lib/types.ts `UnsplashAttribution`. -/
structure UnsplashAttribution where
  photographer : Option String
  photographerUrl : Option String
  unsplashUrl : Option String
deriving DecidableEq, Repr

/-- A `NextResponse.json` value produced by the random-dog relay. -/
structure RandomDogRouteResponse where
  status : Nat
  image : Option String
  attribution : Option UnsplashAttribution
  error : Option String
deriving DecidableEq, Repr

/-- app/api/random-dog/route.ts `GET`.  `accessKey` models
`UNSPLASH_ACCESS_KEY`, `api` the Unsplash lookup, `img` the image download.
Source order: key check (500), provider fetch (non-ok: 502; thrown: 500),
`data.urls?.regular || data.urls?.full` with a falsy check (502), download
(non-ok: 502; thrown: 500), then a 200 body whose `image` is
`data:<content-type || image/jpeg>;base64,<bytes>` with the attribution
object always attached. -/
def GET (accessKey : Option String) (api : ProviderOutcome) (img : ImageDownloadOutcome) :
    RandomDogRouteResponse :=
  if jsTruthy accessKey = false then
    ⟨500, none, none, some "Server configuration error"⟩
  else
    match api with
    | .networkFailure _ => ⟨500, none, none, some "Internal server error"⟩
    | .response status body =>
      if statusOk status = false then
        ⟨502, none, none, some "Failed to fetch image from Unsplash"⟩
      else
        match body with
        | .error _ => ⟨500, none, none, some "Internal server error"⟩
        | .ok data =>
          let imageUrl := if jsTruthy data.urlsRegular then data.urlsRegular else data.urlsFull
          if jsTruthy imageUrl = false then
            ⟨502, none, none, some "No image URL in response"⟩
          else
            match img with
            | .networkFailure _ => ⟨500, none, none, some "Internal server error"⟩
            | .response istatus contentType bytes =>
              if statusOk istatus = false then
                ⟨502, none, none, some "Failed to download image"⟩
              else
                ⟨200,
                  some ("data:" ++ jsOr contentType "image/jpeg" ++ ";base64," ++
                    base64Encode bytes),
                  some ⟨data.userName, data.userLinksHtml, data.linksHtml⟩,
                  none⟩

/-- lib/types.ts `ImageSource`. -/
inductive ImageSource where
  | unsplash
  | upload
  | camera
deriving DecidableEq, Repr

/-- The state of the `Home` component of app/page.tsx that the camera and
prediction handlers touch: `selectedImage`, `result`, `loading`, `error`,
`imageSource`, `cameraActive`, and whether a `MediaStream` with live
(unstopped) tracks is held (`streamActive`). -/
structure HomeState where
  selectedImage : Option String
  result : Option PawRecognitionResponse
  loading : Bool
  error : Option String
  imageSource : Option ImageSource
  cameraActive : Bool
  streamActive : Bool
deriving Repr

/-- app/page.tsx `stopCamera`: stops every track of the held stream, clears
it, detaches the video element and deactivates the camera view. -/
def stopCamera (s : HomeState) : HomeState :=
  { s with streamActive := false, cameraActive := false }

/-- app/page.tsx `startCamera`: on a granted `getUserMedia` the stream is
stored and the camera view activated; on rejection only an error message is
set. -/
def startCamera (s : HomeState) (granted : Bool) : HomeState :=
  if granted then
    { s with streamActive := true, cameraActive := true, error := none,
             result := none, selectedImage := none }
  else
    { s with error := some "Failed to access camera. Please check permissions." }

/-- app/page.tsx `capturePhoto`: when the video and canvas refs are present
and a 2d context is obtained, the frame is drawn, `canvas.toDataURL` yields
`imageData`, the image is selected and `stopCamera` runs; otherwise nothing
happens. -/
def capturePhoto (s : HomeState) (refsPresent ctxObtained : Bool) (imageData : String) :
    HomeState :=
  if refsPresent && ctxObtained then
    stopCamera { s with selectedImage := some imageData, imageSource := some .camera }
  else
    s

/-- The stream-attachment `useEffect` of app/page.tsx (lines 24–32) returns
no cleanup function, so unmounting the component runs no code of this
component: the held stream's tracks are left untouched. -/
def unmountHome (s : HomeState) : HomeState :=
  s

/-- app/page.tsx `handlePredict`: requires a selected image, clears the
error, calls `predictFromBase64` on it, then surfaces `response.error` when
truthy and otherwise stores the response as the result. -/
def handlePredict (s : HomeState) (fo : FetchOutcome) : HomeState :=
  match s.selectedImage with
  | none => { s with error := some "Please select an image first" }
  | some img =>
    let s1 := { s with loading := true, error := none }
    let response := predictFromBase64 img fo
    let s2 :=
      if jsTruthy response.error then { s1 with error := response.error }
      else { s1 with result := some response }
    { s2 with loading := false }

lemma jsOr_of_not_truthy (o : Option String) (d : String) (h : jsTruthy o = false) :
    jsOr o d = d := by
  cases o with
  | none => rfl
  | some s =>
    by_cases hs : s = "" <;> simp [jsTruthy, jsOr, hs] at *

lemma jsOr_some_of_ne (s d : String) (h : s ≠ "") : jsOr (some s) d = s := by
  simp [jsOr, h]

/-- C1.  The claim asserts the fixed rate-limit message for both modes.
It holds for `predictPaw` but not for `predictFromBase64`, which has no 429
special case: a 429 whose body is `{"error":"rate limited"}` surfaces
"rate limited", not "Too many requests. Please try again later.". -/
theorem relayed_429_message_counterexample :
    (predictFromBase64 "data:image/png;base64,AAAA"
        (.response 429 (.ok ⟨none, some "rate limited"⟩))).error = some "rate limited" ∧
    ("rate limited" : String) ≠ "Too many requests. Please try again later." := by
  exact ⟨by decide, by decide⟩

/-- C1 (amended).  Only direct mode (`predictPaw`) maps HTTP 429 to the
fixed message "Too many requests. Please try again later." regardless of
body; relayed mode (`predictFromBase64`) treats 429 like any other non-2xx
status: the error is the parsed body's `error` field when non-empty,
"Unknown error" when the body is unparseable, and otherwise
"HTTP error! status: 429". -/
theorem rate_limit_message_amended :
    (∀ (f : File) (enc : String) (body : Except String PawRecognitionResponse),
       strStartsWith f.type "image/" = true → f.size ≤ maxSize →
       predictPaw f (some enc) (.response 429 body) =
         ⟨none, some "Too many requests. Please try again later."⟩) ∧
    (∀ (img e : String) (preds : Option (List Prediction)), e ≠ "" →
       (predictFromBase64 img (.response 429 (.ok ⟨preds, some e⟩))).error = some e) ∧
    (∀ (img msg : String),
       (predictFromBase64 img (.response 429 (.error msg))).error =
         some "Unknown error") ∧
    (∀ (img : String) (preds : Option (List Prediction)) (oe : Option String),
       jsTruthy oe = false →
       (predictFromBase64 img (.response 429 (.ok ⟨preds, oe⟩))).error =
         some "HTTP error! status: 429") := by
  refine ⟨?_, ?_, ?_, ?_⟩
  · intro f enc body h1 h2
    simp [predictPaw, predictPawRun, h1, Nat.not_lt.mpr h2]
  · intro img e preds h
    simp [predictFromBase64, statusOk, Except.toOption, jsOr_some_of_ne _ _ h]
  · intro img msg
    simp [predictFromBase64, statusOk, Except.toOption, jsOr]
  · intro img preds oe h
    simp [predictFromBase64, statusOk, Except.toOption, jsOr_of_not_truthy _ _ h]
    rfl

theorem rate_limit_message_amended_witness :
    predictPaw ⟨"image/png", 10⟩ (some "enc") (.response 429 (.error "x")) =
      ⟨none, some "Too many requests. Please try again later."⟩ ∧
    (predictFromBase64 "i" (.response 429 (.ok ⟨none, some "e"⟩))).error = some "e" ∧
    (predictFromBase64 "i" (.response 429 (.error "m"))).error = some "Unknown error" ∧
    (predictFromBase64 "i" (.response 429 (.ok ⟨none, none⟩))).error =
      some "HTTP error! status: 429" :=
  ⟨rate_limit_message_amended.1 ⟨"image/png", 10⟩ "enc" (.error "x") (by decide) (by decide),
   rate_limit_message_amended.2.1 "i" "e" none (by decide),
   rate_limit_message_amended.2.2.1 "i" "m",
   rate_limit_message_amended.2.2.2 "i" none none (by decide)⟩

/-- C2.  From a state with a selected image and no stored result, a 2xx
response whose parsed body carries a non-empty `error` field makes
`handlePredict` surface that error and leave the result empty: the error
takes precedence over any `predictions` field of the same body, and the
surfaced state never holds both meaningful predictions and a meaningful
error. -/
theorem error_precedence_over_predictions (s : HomeState) (img e : String) (status : Nat)
    (b : PawRecognitionResponse)
    (hsel : s.selectedImage = some img) (hres : s.result = none)
    (hok : statusOk status = true) (herr : b.error = some e) (hne : e ≠ "") :
    (handlePredict s (.response status (.ok b))).error = some e ∧
    (handlePredict s (.response status (.ok b))).result = none := by
  simp [handlePredict, hsel, predictFromBase64, hok, herr, jsTruthy, hne, hres]

theorem error_precedence_over_predictions_witness :
    (handlePredict ⟨some "i", none, false, none, none, false, false⟩
        (.response 200 (.ok ⟨some [⟨"golden-retriever", 1/2⟩], some "boom"⟩))).error =
      some "boom" ∧
    (handlePredict ⟨some "i", none, false, none, none, false, false⟩
        (.response 200 (.ok ⟨some [⟨"golden-retriever", 1/2⟩], some "boom"⟩))).result =
      none :=
  error_precedence_over_predictions ⟨some "i", none, false, none, none, false, false⟩
    "i" "boom" 200 ⟨some [⟨"golden-retriever", 1/2⟩], some "boom"⟩
    rfl rfl (by decide) rfl (by decide)

/-- C3.  The claim says `urlToBase64` fails with a network error on every
non-2xx GET and never encodes a non-2xx body.  The source never checks
`response.ok`: a 404 whose body is the two bytes "hi" is happily encoded
into a data URI. -/
theorem urlToBase64_non2xx_counterexample :
    urlToBase64 (.response 404 "text/html" [104, 105]) true =
      .ok "data:text/html;base64,aGk=" ∧
    statusOk 404 = false := by
  exact ⟨rfl, by decide⟩

/-- C3 (amended).  `urlToBase64` fails only when the GET's transport (or the
blob read) fails or the reader fails; it performs no status check, so for
every status — non-2xx included — it returns a data URI built from the
response body. -/
theorem urlToBase64_failure_modes :
    (∀ (msg : String) (readerOk : Bool),
       urlToBase64 (.transportFailure msg) readerOk = .error msg) ∧
    (∀ (status : Nat) (blobType : String) (bytes : List Nat),
       urlToBase64 (.response status blobType bytes) true =
         .ok ("data:" ++ blobType ++ ";base64," ++ base64Encode bytes)) ∧
    (∀ (status : Nat) (blobType : String) (bytes : List Nat),
       urlToBase64 (.response status blobType bytes) false = .error "FileReader error") :=
  ⟨fun _ _ => rfl, fun _ _ _ => rfl, fun _ _ _ => rfl⟩

/-- C4.  The claim says the capture stream's tracks are stopped on every
exit path including component teardown.  The stream-attachment effect
registers no cleanup, so unmounting with an active session leaves the
tracks live. -/
theorem camera_teardown_counterexample :
    (unmountHome ⟨none, none, false, none, none, true, true⟩).streamActive = true := rfl

/-- C4 (amended).  The stream's tracks are stopped on explicit cancellation
(`stopCamera`) and on successful capture (`capturePhoto` with the refs
present and a canvas context obtained), but component teardown runs no
cleanup and leaves the stream state untouched. -/
theorem camera_release_amended :
    (∀ s : HomeState, (stopCamera s).streamActive = false) ∧
    (∀ (s : HomeState) (refsPresent ctxObtained : Bool) (imageData : String),
       (refsPresent && ctxObtained) = true →
       (capturePhoto s refsPresent ctxObtained imageData).streamActive = false) ∧
    (∀ s : HomeState, (unmountHome s).streamActive = s.streamActive) := by
  refine ⟨fun s => rfl, ?_, fun s => rfl⟩
  intro s refsPresent ctxObtained imageData h
  simp [capturePhoto, h, stopCamera]

theorem camera_release_amended_witness :
    (stopCamera ⟨none, none, false, none, none, true, true⟩).streamActive = false ∧
    (capturePhoto ⟨none, none, false, none, none, true, true⟩ true true "d").streamActive =
      false ∧
    (unmountHome ⟨none, none, false, none, none, true, true⟩).streamActive = true :=
  ⟨camera_release_amended.1 ⟨none, none, false, none, none, true, true⟩,
   camera_release_amended.2.1 ⟨none, none, false, none, none, true, true⟩ true true "d" rfl,
   camera_release_amended.2.2 ⟨none, none, false, none, none, true, true⟩⟩

/-- C10.  In the predict relay the configuration check precedes body
parsing: whenever the API URL or key is unset (or empty), the relay answers
500 "Server configuration error" for every request body — including one
that fails to parse or lacks an `image` field — so the 400 "No image
provided" rejection is reachable only with configuration present. -/
theorem relay_config_check_precedes_body
    (apiUrl apiKey : Option String) (req : Except String (Option String))
    (up : UpstreamOutcome)
    (h : (jsTruthy apiUrl && jsTruthy apiKey) = false) :
    POST apiUrl apiKey req up = ⟨500, ⟨some "Server configuration error", []⟩⟩ := by
  simp [POST, h]

theorem relay_config_check_precedes_body_witness :
    POST none none (.ok none) (.networkFailure "x") =
      ⟨500, ⟨some "Server configuration error", []⟩⟩ :=
  relay_config_check_precedes_body none none (.ok none) (.networkFailure "x") (by decide)

/-- The failure cases of a `predictPaw` run, read off the inputs: invalid
type, oversize, encode failure, or any network-level failure. -/
def predictFromBase64FailureB (fo : FetchOutcome) : Bool :=
  match fo with
  | .networkFailure _ => true
  | .response status body =>
    !(statusOk status) || (match body with | .error _ => true | .ok _ => false)

def predictPawFailureB (f : File) (enc : Option String) (fo : FetchOutcome) : Bool :=
  !(strStartsWith f.type "image/") || decide (maxSize < f.size) || enc.isNone ||
    predictFromBase64FailureB fo

/-- C5.  Both prediction functions are total — modelled as total Lean
functions over every I/O outcome — and on every failure outcome
(validation failure, encode failure, transport failure, any non-2xx
status, unparseable body) the returned `PawRecognitionResponse` carries an
error message. -/
theorem predict_never_throws :
    (∀ (f : File) (enc : Option String) (fo : FetchOutcome),
       predictPawFailureB f enc fo = true → (predictPaw f enc fo).error.isSome = true) ∧
    (∀ (img : String) (fo : FetchOutcome),
       predictFromBase64FailureB fo = true →
       (predictFromBase64 img fo).error.isSome = true) := by
  constructor
  · intro f enc fo h
    by_cases h1 : strStartsWith f.type "image/" = false
    · simp [predictPaw, predictPawRun, h1]
    · by_cases h2 : maxSize < f.size
      · simp [predictPaw, predictPawRun, h1, h2]
      · cases enc with
        | none => simp [predictPaw, predictPawRun, h1, h2]
        | some e =>
          cases fo with
          | networkFailure msg => simp [predictPaw, predictPawRun, h1, h2]
          | response status body =>
            by_cases h3 : status = 429
            · simp [predictPaw, predictPawRun, h1, h2, h3]
            · by_cases h4 : status = 401 ∨ status = 403
              · simp [predictPaw, predictPawRun, h1, h2, h3, h4]
              · by_cases h5 : statusOk status = false
                · simp [predictPaw, predictPawRun, h1, h2, h3, h4, h5]
                · cases body with
                  | error m => simp [predictPaw, predictPawRun, h1, h2, h3, h4, h5]
                  | ok b =>
                    exfalso
                    simp [predictPawFailureB, predictFromBase64FailureB,
                      h1, h2, h5] at h
  · intro img fo h
    cases fo with
    | networkFailure msg => simp [predictFromBase64]
    | response status body =>
      by_cases h5 : statusOk status = false
      · simp [predictFromBase64, h5]
      · cases body with
        | error m => simp [predictFromBase64, h5]
        | ok b =>
          exfalso
          simp [predictFromBase64FailureB, h5] at h

theorem predict_never_throws_witness :
    predictPawFailureB ⟨"text/plain", 1⟩ none (.networkFailure "x") = true ∧
    (predictPaw ⟨"text/plain", 1⟩ none (.networkFailure "x")).error.isSome = true ∧
    predictFromBase64FailureB (.response 500 (.error "p")) = true ∧
    (predictFromBase64 "i" (.response 500 (.error "p"))).error.isSome = true :=
  ⟨by decide,
   predict_never_throws.1 ⟨"text/plain", 1⟩ none (.networkFailure "x") (by decide),
   by decide,
   predict_never_throws.2 "i" (.response 500 (.error "p")) (by decide)⟩

/-- C6.  The claim says the predict relay passes the inference service's
failure body through verbatim.  It does not: on an upstream 418 whose body
is `{"detail":"oops"}` the relay keeps the status but replaces the body
with `{ error: "API error: 418" }`. -/
theorem predict_relay_body_not_verbatim :
    POST (some "https://api.example") (some "key")
        (.ok (some "data:image/png;base64,AAAA"))
        (.response 418 (.ok ⟨none, [("detail", "oops")]⟩)) =
      ⟨418, ⟨some "API error: 418", []⟩⟩ ∧
    (⟨some "API error: 418", []⟩ : UpstreamBody) ≠ ⟨none, [("detail", "oops")]⟩ := by
  exact ⟨by decide, by decide⟩

/-- C6 (amended).  The predict relay returns 400 "No image provided" when
the parsed body's `image` field is absent (or empty) and configuration is
present, 500 when the API URL or key is unset; otherwise it forwards the
request and passes through the inference service's status code on failure,
but re-wraps the failure body as `{ error: e }` where `e` is the upstream
body's `error` field when non-empty, "Unknown error" when the upstream body
is unparseable, and "API error: <status>" otherwise — dropping every other
field; on success it returns the upstream JSON body with status 200. -/
theorem predict_relay_contract_amended :
    (∀ (apiUrl apiKey : Option String) (req : Except String (Option String))
       (up : UpstreamOutcome),
       (jsTruthy apiUrl && jsTruthy apiKey) = false →
       POST apiUrl apiKey req up = ⟨500, ⟨some "Server configuration error", []⟩⟩) ∧
    (∀ (apiUrl apiKey image : Option String) (up : UpstreamOutcome),
       (jsTruthy apiUrl && jsTruthy apiKey) = true → jsTruthy image = false →
       POST apiUrl apiKey (.ok image) up = ⟨400, ⟨some "No image provided", []⟩⟩) ∧
    (∀ (apiUrl apiKey image : Option String) (status : Nat) (e : String)
       (extra : List (String × String)),
       (jsTruthy apiUrl && jsTruthy apiKey) = true → jsTruthy image = true →
       statusOk status = false → e ≠ "" →
       POST apiUrl apiKey (.ok image) (.response status (.ok ⟨some e, extra⟩)) =
         ⟨status, ⟨some e, []⟩⟩) ∧
    (∀ (apiUrl apiKey image oe : Option String) (status : Nat)
       (extra : List (String × String)),
       (jsTruthy apiUrl && jsTruthy apiKey) = true → jsTruthy image = true →
       statusOk status = false → jsTruthy oe = false →
       POST apiUrl apiKey (.ok image) (.response status (.ok ⟨oe, extra⟩)) =
         ⟨status, ⟨some ("API error: " ++ toString status), []⟩⟩) ∧
    (∀ (apiUrl apiKey image : Option String) (status : Nat) (msg : String),
       (jsTruthy apiUrl && jsTruthy apiKey) = true → jsTruthy image = true →
       statusOk status = false →
       POST apiUrl apiKey (.ok image) (.response status (.error msg)) =
         ⟨status, ⟨some "Unknown error", []⟩⟩) ∧
    (∀ (apiUrl apiKey image : Option String) (status : Nat) (data : UpstreamBody),
       (jsTruthy apiUrl && jsTruthy apiKey) = true → jsTruthy image = true →
       statusOk status = true →
       POST apiUrl apiKey (.ok image) (.response status (.ok data)) = ⟨200, data⟩) := by
  refine ⟨?_, ?_, ?_, ?_, ?_, ?_⟩
  · intro apiUrl apiKey req up h
    simp [POST, h]
  · intro apiUrl apiKey image up hcfg himg
    simp [POST, hcfg, himg]
  · intro apiUrl apiKey image status e extra hcfg himg hst he
    simp [POST, hcfg, himg, hst, Except.toOption, jsOr_some_of_ne _ _ he]
  · intro apiUrl apiKey image oe status extra hcfg himg hst hoe
    simp [POST, hcfg, himg, hst, Except.toOption, jsOr_of_not_truthy _ _ hoe]
  · intro apiUrl apiKey image status msg hcfg himg hst
    simp [POST, hcfg, himg, hst, Except.toOption, jsOr]
  · intro apiUrl apiKey image status data hcfg himg hst
    simp [POST, hcfg, himg, hst]

theorem predict_relay_contract_amended_witness :
    POST none (some "k") (.ok (some "i")) (.networkFailure "x") =
      ⟨500, ⟨some "Server configuration error", []⟩⟩ ∧
    POST (some "u") (some "k") (.ok none) (.networkFailure "x") =
      ⟨400, ⟨some "No image provided", []⟩⟩ ∧
    POST (some "u") (some "k") (.ok (some "i")) (.response 503 (.ok ⟨some "boom", []⟩)) =
      ⟨503, ⟨some "boom", []⟩⟩ ∧
    POST (some "u") (some "k") (.ok (some "i")) (.response 503 (.ok ⟨none, []⟩)) =
      ⟨503, ⟨some ("API error: " ++ toString 503), []⟩⟩ ∧
    POST (some "u") (some "k") (.ok (some "i")) (.response 503 (.error "p")) =
      ⟨503, ⟨some "Unknown error", []⟩⟩ ∧
    POST (some "u") (some "k") (.ok (some "i"))
        (.response 200 (.ok ⟨none, [("predictions", "…")]⟩)) =
      ⟨200, ⟨none, [("predictions", "…")]⟩⟩ :=
  ⟨predict_relay_contract_amended.1 none (some "k") (.ok (some "i")) (.networkFailure "x")
     (by decide),
   predict_relay_contract_amended.2.1 (some "u") (some "k") none (.networkFailure "x")
     (by decide) (by decide),
   predict_relay_contract_amended.2.2.1 (some "u") (some "k") (some "i") 503 "boom" []
     (by decide) (by decide) (by decide) (by decide),
   predict_relay_contract_amended.2.2.2.1 (some "u") (some "k") (some "i") none 503 []
     (by decide) (by decide) (by decide) (by decide),
   predict_relay_contract_amended.2.2.2.2.1 (some "u") (some "k") (some "i") 503 "p"
     (by decide) (by decide) (by decide),
   predict_relay_contract_amended.2.2.2.2.2 (some "u") (some "k") (some "i") 200
     ⟨none, [("predictions", "…")]⟩ (by decide) (by decide) (by decide)⟩

/-- C7.  The random-image relay returns 500 when its provider credential is
unset; 502 with no image field when the provider lookup fails, when the
provider response lacks a usable image URL, or when the image download
fails; and on success a 200 body whose `image` is a base64 data URI tagged
with the provider's declared content type, together with an attribution
object. -/
theorem random_dog_relay_contract :
    (∀ (k : Option String) (api : ProviderOutcome) (img : ImageDownloadOutcome),
       jsTruthy k = false →
       GET k api img = ⟨500, none, none, some "Server configuration error"⟩) ∧
    (∀ (k : Option String) (status : Nat) (body : Except String UnsplashData)
       (img : ImageDownloadOutcome),
       jsTruthy k = true → statusOk status = false →
       GET k (.response status body) img =
         ⟨502, none, none, some "Failed to fetch image from Unsplash"⟩) ∧
    (∀ (k : Option String) (status : Nat) (data : UnsplashData)
       (img : ImageDownloadOutcome),
       jsTruthy k = true → statusOk status = true →
       jsTruthy data.urlsRegular = false → jsTruthy data.urlsFull = false →
       GET k (.response status (.ok data)) img =
         ⟨502, none, none, some "No image URL in response"⟩) ∧
    (∀ (k : Option String) (status istatus : Nat) (data : UnsplashData)
       (ct : Option String) (bytes : List Nat),
       jsTruthy k = true → statusOk status = true →
       jsTruthy data.urlsRegular = true → statusOk istatus = false →
       GET k (.response status (.ok data)) (.response istatus ct bytes) =
         ⟨502, none, none, some "Failed to download image"⟩) ∧
    (∀ (k : Option String) (status istatus : Nat) (data : UnsplashData)
       (ct : String) (bytes : List Nat),
       jsTruthy k = true → statusOk status = true →
       jsTruthy data.urlsRegular = true → statusOk istatus = true → ct ≠ "" →
       GET k (.response status (.ok data)) (.response istatus (some ct) bytes) =
         ⟨200, some ("data:" ++ ct ++ ";base64," ++ base64Encode bytes),
           some ⟨data.userName, data.userLinksHtml, data.linksHtml⟩, none⟩) := by
  refine ⟨?_, ?_, ?_, ?_, ?_⟩
  · intro k api img hk
    simp [GET, hk]
  · intro k status body img hk hst
    simp [GET, hk, hst]
  · intro k status data img hk hst hr hf
    simp [GET, hk, hst, hr, hf]
  · intro k status istatus data ct bytes hk hst hr hist
    simp [GET, hk, hst, hr, hist]
  · intro k status istatus data ct bytes hk hst hr hist hct
    simp [GET, hk, hst, hr, hist, jsOr_some_of_ne _ _ hct]

theorem random_dog_relay_contract_witness :
    GET none (.networkFailure "x") (.networkFailure "y") =
      ⟨500, none, none, some "Server configuration error"⟩ ∧
    GET (some "k") (.response 503 (.error "p")) (.networkFailure "y") =
      ⟨502, none, none, some "Failed to fetch image from Unsplash"⟩ ∧
    GET (some "k") (.response 200 (.ok ⟨none, none, none, none, none⟩))
        (.networkFailure "y") = ⟨502, none, none, some "No image URL in response"⟩ ∧
    GET (some "k")
        (.response 200 (.ok ⟨some "https://img.example/d.jpg", none, none, none, none⟩))
        (.response 404 none []) = ⟨502, none, none, some "Failed to download image"⟩ ∧
    GET (some "k")
        (.response 200 (.ok ⟨some "https://img.example/d.jpg", none, some "Ann",
           some "https://unsplash.com/@ann", some "https://unsplash.com/photos/1"⟩))
        (.response 200 (some "image/png") [104, 105]) =
      ⟨200, some "data:image/png;base64,aGk=",
        some ⟨some "Ann", some "https://unsplash.com/@ann",
          some "https://unsplash.com/photos/1"⟩, none⟩ := by
  refine ⟨random_dog_relay_contract.1 none (.networkFailure "x") (.networkFailure "y")
      (by decide),
    random_dog_relay_contract.2.1 (some "k") 503 (.error "p") (.networkFailure "y")
      (by decide) (by decide),
    random_dog_relay_contract.2.2.1 (some "k") 200 ⟨none, none, none, none, none⟩
      (.networkFailure "y") (by decide) (by decide) (by decide) (by decide),
    random_dog_relay_contract.2.2.2.1 (some "k") 200 404
      ⟨some "https://img.example/d.jpg", none, none, none, none⟩ none []
      (by decide) (by decide) (by decide) (by decide),
    ?_⟩
  have h := random_dog_relay_contract.2.2.2.2 (some "k") 200 200
    ⟨some "https://img.example/d.jpg", none, some "Ann",
      some "https://unsplash.com/@ann", some "https://unsplash.com/photos/1"⟩
    "image/png" [104, 105] (by decide) (by decide) (by decide) (by decide) (by decide)
  exact h

/-- C8.  `predictPaw` rejects a file whose MIME type does not start with
"image/" with "Please upload a valid image file", and an image file larger
than 5 MiB (5*1024*1024 bytes) with "Image size should be less than 5MB",
in both cases before the encode and before any network call; a file of a
valid image type with size at most 5 MiB passes validation, is encoded, and
— when encoding succeeds — submitted. -/
theorem upload_validation_contract :
    (∀ (f : File) (enc : Option String) (fo : FetchOutcome),
       strStartsWith f.type "image/" = false →
       predictPawRun f enc fo =
         ⟨⟨none, some "Please upload a valid image file"⟩, false, false⟩) ∧
    (∀ (f : File) (enc : Option String) (fo : FetchOutcome),
       strStartsWith f.type "image/" = true → maxSize < f.size →
       predictPawRun f enc fo =
         ⟨⟨none, some "Image size should be less than 5MB"⟩, false, false⟩) ∧
    (∀ (f : File) (enc : Option String) (fo : FetchOutcome),
       strStartsWith f.type "image/" = true → f.size ≤ maxSize →
       (predictPawRun f enc fo).encodeCalled = true) ∧
    (∀ (f : File) (e : String) (fo : FetchOutcome),
       strStartsWith f.type "image/" = true → f.size ≤ maxSize →
       (predictPawRun f (some e) fo).fetchCalled = true) := by
  refine ⟨?_, ?_, ?_, ?_⟩
  · intro f enc fo h
    simp [predictPawRun, h]
  · intro f enc fo h1 h2
    simp [predictPawRun, h1, h2]
  · intro f enc fo h1 h2
    cases enc with
    | none => simp [predictPawRun, h1, Nat.not_lt.mpr h2]
    | some e =>
      cases fo with
      | networkFailure msg => simp [predictPawRun, h1, Nat.not_lt.mpr h2]
      | response status body =>
        by_cases h3 : status = 429
        · simp [predictPawRun, h1, Nat.not_lt.mpr h2, h3]
        · by_cases h4 : status = 401 ∨ status = 403
          · simp [predictPawRun, h1, Nat.not_lt.mpr h2, h3, h4]
          · by_cases h5 : statusOk status = false
            · simp [predictPawRun, h1, Nat.not_lt.mpr h2, h3, h4, h5]
            · cases body with
              | ok b => simp [predictPawRun, h1, Nat.not_lt.mpr h2, h3, h4, h5]
              | error m => simp [predictPawRun, h1, Nat.not_lt.mpr h2, h3, h4, h5]
  · intro f e fo h1 h2
    cases fo with
    | networkFailure msg => simp [predictPawRun, h1, Nat.not_lt.mpr h2]
    | response status body =>
      by_cases h3 : status = 429
      · simp [predictPawRun, h1, Nat.not_lt.mpr h2, h3]
      · by_cases h4 : status = 401 ∨ status = 403
        · simp [predictPawRun, h1, Nat.not_lt.mpr h2, h3, h4]
        · by_cases h5 : statusOk status = false
          · simp [predictPawRun, h1, Nat.not_lt.mpr h2, h3, h4, h5]
          · cases body with
            | ok b => simp [predictPawRun, h1, Nat.not_lt.mpr h2, h3, h4, h5]
            | error m => simp [predictPawRun, h1, Nat.not_lt.mpr h2, h3, h4, h5]

theorem upload_validation_contract_witness :
    predictPawRun ⟨"application/pdf", 1⟩ (some "e") (.response 200 (.ok ⟨none, none⟩)) =
      ⟨⟨none, some "Please upload a valid image file"⟩, false, false⟩ ∧
    predictPawRun ⟨"image/png", 5 * 1024 * 1024 + 1⟩ (some "e")
        (.response 200 (.ok ⟨none, none⟩)) =
      ⟨⟨none, some "Image size should be less than 5MB"⟩, false, false⟩ ∧
    (predictPawRun ⟨"image/png", 5 * 1024 * 1024⟩ none
        (.response 200 (.ok ⟨none, none⟩))).encodeCalled = true ∧
    (predictPawRun ⟨"image/png", 5 * 1024 * 1024⟩ (some "e")
        (.response 200 (.ok ⟨none, none⟩))).fetchCalled = true :=
  ⟨upload_validation_contract.1 ⟨"application/pdf", 1⟩ (some "e")
     (.response 200 (.ok ⟨none, none⟩)) (by decide),
   upload_validation_contract.2.1 ⟨"image/png", 5 * 1024 * 1024 + 1⟩ (some "e")
     (.response 200 (.ok ⟨none, none⟩)) (by decide) (by decide),
   upload_validation_contract.2.2.1 ⟨"image/png", 5 * 1024 * 1024⟩ none
     (.response 200 (.ok ⟨none, none⟩)) (by decide) (by decide),
   upload_validation_contract.2.2.2 ⟨"image/png", 5 * 1024 * 1024⟩ "e"
     (.response 200 (.ok ⟨none, none⟩)) (by decide) (by decide)⟩

/-- C9.  The claim says a generic-path non-2xx response whose body has no
`error` field yields the message "HTTP error! status: <code>".  When the
body fails to parse, `.catch(() => ({ error: 'Unknown error' }))` supplies
"Unknown error" instead, so a 500 with an unparseable body surfaces
"Unknown error", not "HTTP error! status: 500". -/
theorem non2xx_unparseable_body_counterexample :
    (predictFromBase64 "img" (.response 500 (.error "SyntaxError"))).error =
      some "Unknown error" ∧
    ("Unknown error" : String) ≠ "HTTP error! status: 500" := by
  exact ⟨by decide, by decide⟩

/-- C9 (amended).  On the generic non-2xx path — every non-2xx status other
than 429, 401 and 403 in direct mode, every non-2xx status in relayed mode
— the surfaced error message is the response body's `error` field when the
body parses and that field is non-empty; "Unknown error" when the body is
unparseable; and "HTTP error! status: <code>" otherwise. -/
theorem non2xx_error_message_amended :
    (∀ (f : File) (enc e : String) (st : Nat) (preds : Option (List Prediction)),
       strStartsWith f.type "image/" = true → f.size ≤ maxSize →
       st ≠ 429 → ¬(st = 401 ∨ st = 403) → statusOk st = false → e ≠ "" →
       (predictPaw f (some enc) (.response st (.ok ⟨preds, some e⟩))).error = some e) ∧
    (∀ (f : File) (enc : String) (st : Nat) (preds : Option (List Prediction))
       (oe : Option String),
       strStartsWith f.type "image/" = true → f.size ≤ maxSize →
       st ≠ 429 → ¬(st = 401 ∨ st = 403) → statusOk st = false → jsTruthy oe = false →
       (predictPaw f (some enc) (.response st (.ok ⟨preds, oe⟩))).error =
         some ("HTTP error! status: " ++ toString st)) ∧
    (∀ (f : File) (enc msg : String) (st : Nat),
       strStartsWith f.type "image/" = true → f.size ≤ maxSize →
       st ≠ 429 → ¬(st = 401 ∨ st = 403) → statusOk st = false →
       (predictPaw f (some enc) (.response st (.error msg))).error =
         some "Unknown error") ∧
    (∀ (img e : String) (st : Nat) (preds : Option (List Prediction)),
       statusOk st = false → e ≠ "" →
       (predictFromBase64 img (.response st (.ok ⟨preds, some e⟩))).error = some e) ∧
    (∀ (img : String) (st : Nat) (preds : Option (List Prediction)) (oe : Option String),
       statusOk st = false → jsTruthy oe = false →
       (predictFromBase64 img (.response st (.ok ⟨preds, oe⟩))).error =
         some ("HTTP error! status: " ++ toString st)) ∧
    (∀ (img msg : String) (st : Nat),
       statusOk st = false →
       (predictFromBase64 img (.response st (.error msg))).error = some "Unknown error") := by
  refine ⟨?_, ?_, ?_, ?_, ?_, ?_⟩
  · intro f enc e st preds h1 h2 h3 h4 h5 he
    simp [predictPaw, predictPawRun, h1, Nat.not_lt.mpr h2, h3, h4, h5,
      Except.toOption, jsOr_some_of_ne _ _ he]
  · intro f enc st preds oe h1 h2 h3 h4 h5 hoe
    simp [predictPaw, predictPawRun, h1, Nat.not_lt.mpr h2, h3, h4, h5,
      Except.toOption, jsOr_of_not_truthy _ _ hoe]
  · intro f enc msg st h1 h2 h3 h4 h5
    simp [predictPaw, predictPawRun, h1, Nat.not_lt.mpr h2, h3, h4, h5,
      Except.toOption, jsOr]
  · intro img e st preds h5 he
    simp [predictFromBase64, h5, Except.toOption, jsOr_some_of_ne _ _ he]
  · intro img st preds oe h5 hoe
    simp [predictFromBase64, h5, Except.toOption, jsOr_of_not_truthy _ _ hoe]
  · intro img msg st h5
    simp [predictFromBase64, h5, Except.toOption, jsOr]

theorem non2xx_error_message_amended_witness :
    (predictPaw ⟨"image/png", 1⟩ (some "enc")
        (.response 500 (.ok ⟨none, some "boom"⟩))).error = some "boom" ∧
    (predictPaw ⟨"image/png", 1⟩ (some "enc")
        (.response 500 (.ok ⟨none, none⟩))).error =
      some ("HTTP error! status: " ++ toString 500) ∧
    (predictPaw ⟨"image/png", 1⟩ (some "enc")
        (.response 500 (.error "p"))).error = some "Unknown error" ∧
    (predictFromBase64 "i" (.response 500 (.ok ⟨none, some "boom"⟩))).error =
      some "boom" ∧
    (predictFromBase64 "i" (.response 500 (.ok ⟨none, none⟩))).error =
      some ("HTTP error! status: " ++ toString 500) ∧
    (predictFromBase64 "i" (.response 500 (.error "p"))).error = some "Unknown error" :=
  ⟨non2xx_error_message_amended.1 ⟨"image/png", 1⟩ "enc" "boom" 500 none
     (by decide) (by decide) (by decide) (by decide) (by decide) (by decide),
   non2xx_error_message_amended.2.1 ⟨"image/png", 1⟩ "enc" 500 none none
     (by decide) (by decide) (by decide) (by decide) (by decide) (by decide),
   non2xx_error_message_amended.2.2.1 ⟨"image/png", 1⟩ "enc" "p" 500
     (by decide) (by decide) (by decide) (by decide) (by decide),
   non2xx_error_message_amended.2.2.2.1 "i" "boom" 500 none (by decide) (by decide),
   non2xx_error_message_amended.2.2.2.2.1 "i" 500 none none (by decide) (by decide),
   non2xx_error_message_amended.2.2.2.2.2 "i" "p" 500 (by decide)⟩
